import Mathlib

set_option maxRecDepth 8000
set_option maxHeartbeats 1000000

/-!
Verification development for the SD-card driver of the Winter2015MPGL1
firmware (drivers/sdcard.c).  The driver is a cooperative state machine
driven once per scheduler tick through a reassignable handler
(G_SdCardStateMachine).  We embed the driver state, the external
environment visible on one tick (time, card presence pin, SSP bus grant,
message-token results, completion of the in-flight transfer and the bytes
it clocks into the receive buffer), and every handler function of
sdcard.c, then prove properties of the resulting step function.
-/

namespace SdCard

/-- Modelled from the spec: the receive-buffer capacity macro
SDCARD_RX_BUFFER_SIZE comes from a header that is not part of the
sources; the spec fixes only that the buffer is a fixed-capacity byte
array large enough for a 512-byte sector plus two checksum bytes.  Any
capacity of at least 514 behaves identically for the properties proved
below; we pick 600. -/
def SDCARD_RX_BUFFER_SIZE : Nat := 600

/-- Modelled from the spec: the wire format gives 6 command bytes plus one
trailing dummy byte, 7 bytes submitted per command (SD_CMD_SIZE). -/
def SD_CMD_SIZE : Nat := 7

/-- Modelled from the spec: a fixed number of dummy byte reads queued to
wake the card (SD_WAKEUP_BYTES); the exact macro value is in a missing
header, the properties below do not depend on it. -/
def SD_WAKEUP_BYTES : Nat := 10

/-- Modelled from the spec: the bounded retry counter of the WaitCommand
sub-state (SD_CMD_RETRIES); exact value in a missing header. -/
def SD_CMD_RETRIES : Nat := 8

/-- Modelled from the spec: per-poll timeout duration in ms
(SD_SPI_WAIT_TIME_MS); exact value in a missing header, only positivity
matters below. -/
def SD_SPI_WAIT_TIME_MS : Nat := 100

/-- Modelled from the spec: whole-command-exchange timeout (SD_WAIT_TIME). -/
def SD_WAIT_TIME : Nat := 500

/-- Modelled from the spec: timeout while polling for the start-of-block
token (SD_READ_TOKEN_MS). -/
def SD_READ_TOKEN_MS : Nat := 250

/-- Modelled from the spec: timeout for the 514-byte sector transfer
(SD_SECTOR_READ_TIMEOUT_MS). -/
def SD_SECTOR_READ_TIMEOUT_MS : Nat := 1000

/-- Modelled from the spec: R1 status byte for a card in the idle state
(SD_STATUS_IDLE); glossary of the spec, value from the SD R1 format. -/
def SD_STATUS_IDLE : Nat := 0x01

/-- Modelled from the spec: R1 status byte for a ready card
(SD_STATUS_READY). -/
def SD_STATUS_READY : Nat := 0x00

/-- Modelled from the spec: expected voltage-range code echoed by CMD8
(SD_VHS_VALUE). -/
def SD_VHS_VALUE : Nat := 0x01

/-- Modelled from the spec: expected check pattern echoed by CMD8
(SD_CHECK_PATTERN). -/
def SD_CHECK_PATTERN : Nat := 0xAA

/-- Modelled from the spec: start-of-block marker byte
(TOKEN_START_BLOCK). -/
def TOKEN_START_BLOCK : Nat := 0xFE

/-- Modelled from the spec: capacity-class bit of the first OCR byte
returned by CMD58 (_SD_OCR_CCS_BIT), bit 30 of the OCR, bit 6 of its
first byte. -/
def SD_OCR_CCS_BIT : Nat := 0x40

/-- BIT6 mask of the board support header. -/
def BIT6 : Nat := 0x40

/-- BIT7 mask of the board support header. -/
def BIT7 : Nat := 0x80

/-- The externally visible card status (SdCardStateType). -/
inductive CardState
  | noCard
  | cardError
  | idle
  | reading
  | dataReady
  | writing
deriving DecidableEq, Repr

/-- One constructor per handler function ever assigned to
G_SdCardStateMachine in sdcard.c. -/
inductive SM
  | idleNoCard
  | dummies
  | responseCMD0
  | responseCMD8
  | readCMD8
  | acmd41Prep
  | responseACMD41
  | responseCMD58
  | responseCMD16
  | readCMD58
  | waitReady
  | waitCommand
  | waitSSP
  | readyIdle
  | responseCMD17
  | waitStartToken
  | dataTransfer
  | failedDataTransfer
  | errorState
deriving DecidableEq, Repr

/-- SD_u8ErrorCode values (SD_ERROR_*). -/
inductive ErrorCode
  | unknown
  | timeout
  | cardVoltage
  | badResponse
  | noToken
  | noSdToken
deriving DecidableEq, Repr

/-- The seven command frames of the driver (SD_au8CMD0 ... SD_au8ACMD41). -/
inductive Cmd
  | cmd0
  | cmd8
  | cmd16
  | cmd17
  | cmd55
  | cmd58
  | acmd41
deriving DecidableEq, Repr

/-- The environment visible to the driver during one tick: the millisecond
counter, the presence pin, whether an SspRequest would be granted, the
token any submission made this tick would receive (0 = submission
rejected), whether the in-flight transfer completes at the start of this
tick, and the values of the bytes that transfer clocks into the receive
buffer. -/
structure Env where
  time : Nat
  cardIn : Bool
  sspOk : Bool
  token : Nat
  complete : Bool
  rxByte : Nat → Nat

/-- The complete mutable state of sdcard.c: the handler pointer, the
externally polled status, the SD_u32Flags bits, bus ownership, the saved
wait-return handler, the saved next command pointer, the mutable bytes of
the ACMD41 and CMD17 frames, the receive buffer with its write cursor
(SD_pu8RxBufferNextByte) and parse cursor (SD_pu8RxBufferParser), the
timeout reference, the current message token together with its in-flight
bookkeeping, the read address, and the static retry counter of
SdCardWaitCommand. -/
structure SdState where
  machine : SM
  cardState : CardState
  inserted : Bool
  typeSD1 : Bool
  typeSD2 : Bool
  cardHC : Bool
  ownsBus : Bool
  errorCode : ErrorCode
  waitReturn : SM
  nextCommand : Cmd
  acmd41Arg1 : Nat
  cmd17b1 : Nat
  cmd17b2 : Nat
  cmd17b3 : Nat
  cmd17b4 : Nat
  rxBuf : Nat → Nat
  nextByte : Nat
  parseIdx : Nat
  timeoutRef : Nat
  msgToken : Nat
  pending : Bool
  inFlightLen : Nat
  lastWrite : Option (List Nat)
  address : Nat
  retries : Nat

/-- One wraparound increment of a receive-buffer index. -/
def wrapStep (p : Nat) : Nat :=
  if p + 1 = SDCARD_RX_BUFFER_SIZE then 0 else p + 1

/-- AdvanceSD_pu8RxBufferParser of sdcard.c on indices: a loop of n
wraparound increments. -/
def advanceIdx : Nat → Nat → Nat
  | p, 0 => p
  | p, n + 1 => advanceIdx (wrapStep p) n

/-- Advance the parse cursor of the state by n bytes. -/
def advanceParseCursor (n : Nat) (s : SdState) : SdState :=
  { s with parseIdx := advanceIdx s.parseIdx n }

/-- FlushSdRxBuffer: parse cursor jumps to the write cursor. -/
def flushRxBuffer (s : SdState) : SdState :=
  { s with parseIdx := s.nextByte }

/-- Pointwise update of the receive buffer. -/
def updateBuf (f : Nat → Nat) (i v : Nat) : Nat → Nat :=
  fun j => if j = i then v else f j

/-- The SSP layer writing n received bytes (values g k, g (k+1), ...) at
the write cursor, advancing it with wraparound. -/
def writeBytes (g : Nat → Nat) : Nat → Nat → ((Nat → Nat) × Nat) → ((Nat → Nat) × Nat)
  | _, 0, bc => bc
  | k, n + 1, (buf, nb) => writeBytes g (k + 1) n (updateBuf buf nb (g k), wrapStep nb)

/-- Modelled from the spec: IsTimeUp of the missing utilities source, the
wraparound-safe elapsed-time predicate of section 5 of the spec: true when
the 32-bit difference between the current time and the captured reference
has reached the duration. -/
def IsTimeUp (now ref dur : Nat) : Bool :=
  decide (dur ≤ (now % 4294967296 + 4294967296 - ref % 4294967296) % 4294967296)

/-- A transfer submission (SspReadByte / SspReadData / SspWriteData):
records the returned token, marks the transfer in flight when the token is
nonzero, remembers how many bytes it will clock into the receive buffer,
and for bulk writes the bytes written. -/
def submit (env : Env) (len : Nat) (wr : Option (List Nat)) (s : SdState) : SdState :=
  { s with msgToken := env.token, pending := env.token != 0,
           inFlightLen := len, lastWrite := wr }

/-- QueryMessageStatus(SD_u32CurrentMsgToken) == COMPLETE: the current
token is real and its transfer is no longer in flight. -/
def queryComplete (s : SdState) : Bool :=
  !s.pending && s.msgToken != 0

/-- The bytes of each command frame as they exist in memory at the given
state; ACMD41 byte 1 and CMD17 bytes 1-4 are mutable. -/
def frameBytes (s : SdState) : Cmd → List Nat
  | .cmd0 => [0x40, 0, 0, 0, 0, 0x95, 0xFF]
  | .cmd8 => [0x48, 0, 0, SD_VHS_VALUE, SD_CHECK_PATTERN, 0x87, 0xFF]
  | .cmd16 => [0x50, 0, 0, 0x02, 0x00, 0xFF, 0xFF]
  | .cmd17 => [0x51, s.cmd17b1, s.cmd17b2, s.cmd17b3, s.cmd17b4, 0xFF, 0xFF]
  | .cmd55 => [0x77, 0, 0, 0, 0, 0xFF, 0xFF]
  | .cmd58 => [0x7A, 0, 0, 0, 0, 0xFF, 0xFF]
  | .acmd41 => [0x69, s.acmd41Arg1, 0, 0, 0, 0xFF, 0xFF]

/-- SdCommand: save the command, capture the timeout reference, queue a
single-byte read to elicit the response; on a zero token (the token of
the submission just made) abort to the error state, otherwise go wait for
the card to be ready. -/
def SdCommand (c : Cmd) (env : Env) (s : SdState) : SdState :=
  if env.token ≠ 0 then
    { submit env 1 none { s with nextCommand := c, timeoutRef := env.time } with
        machine := .waitReady }
  else
    { submit env 1 none { s with nextCommand := c, timeoutRef := env.time } with
        errorCode := .noToken, machine := .errorState }

/-- CheckTimeout: on expiry record a timeout error and divert to SdError. -/
def CheckTimeout (dur : Nat) (env : Env) (s : SdState) : SdState :=
  if IsTimeUp env.time s.timeoutRef dur then
    { s with errorCode := .timeout, machine := .errorState }
  else s

/-- SdIsCardInserted: reads the presence pin; absent forces status
SD_NO_CARD and clears the inserted flag, present sets the flag. -/
def SdIsCardInserted (env : Env) (s : SdState) : Bool × SdState :=
  if env.cardIn then (true, { s with inserted := true })
  else (false, { s with inserted := false, cardState := .noCard })

/-- SdIdleNoCard: on presence (flag set by the presence check), request
the bus; denied requests exit through the settle-wait; otherwise clear
the card-type flags, flush the buffer and queue the wake-up dummy reads,
aborting on a zero token.  On absence the presence check clears the flag
and forces status NoCard. -/
def SdIdleNoCard (env : Env) (s : SdState) : SdState :=
  if env.cardIn then
    (if env.sspOk then
      (if env.token ≠ 0 then
        { submit env SD_WAKEUP_BYTES none (flushRxBuffer
            { s with inserted := true, ownsBus := true,
                     typeSD1 := false, typeSD2 := false, cardHC := false }) with
            machine := .dummies }
      else
        { submit env SD_WAKEUP_BYTES none (flushRxBuffer
            { s with inserted := true, ownsBus := true,
                     typeSD1 := false, typeSD2 := false, cardHC := false }) with
            errorCode := .noToken, machine := .errorState })
    else
      { s with inserted := true, timeoutRef := env.time,
               waitReturn := .idleNoCard, machine := .waitSSP })
  else { s with inserted := false, cardState := .noCard }

/-- SdCardDummies: once the dummy reads complete, skip their responses and
dispatch CMD0. -/
def SdCardDummies (env : Env) (s : SdState) : SdState :=
  if queryComplete s then
    { SdCommand .cmd0 env (advanceParseCursor SD_WAKEUP_BYTES s) with
        waitReturn := .responseCMD0 }
  else s

/-- SdCardResponseCMD0: idle response dispatches CMD8, otherwise bad
response; the parse cursor advances either way. -/
def SdCardResponseCMD0 (env : Env) (s : SdState) : SdState :=
  advanceParseCursor 1
    (if s.rxBuf s.parseIdx = SD_STATUS_IDLE then
      { SdCommand .cmd8 env s with waitReturn := .responseCMD8 }
    else { s with errorCode := .badResponse, machine := .errorState })

/-- SdCardResponseCMD8: idle marks the card TypeV2 and queues the 4-byte
echo read (aborting on a zero token); otherwise the legacy path goes
straight to CMD55. -/
def SdCardResponseCMD8 (env : Env) (s : SdState) : SdState :=
  advanceParseCursor 1
    (if s.rxBuf s.parseIdx = SD_STATUS_IDLE then
      (if env.token ≠ 0 then
        { submit env 4 none { s with typeSD2 := true } with machine := .readCMD8 }
      else
        { submit env 4 none { s with typeSD2 := true } with
            errorCode := .noToken, machine := .errorState })
    else { SdCommand .cmd55 env s with waitReturn := .acmd41Prep })

/-- Completion part of SdCardReadCMD8: skip two echo bytes, verify the
voltage byte and the check pattern; a matching pair dispatches CMD55, a
wrong voltage byte is a voltage error, a wrong check pattern leaves the
handler unchanged apart from cursor movement. -/
def SdCardReadCMD8Body (env : Env) (s : SdState) : SdState :=
  if queryComplete s then
    (if s.rxBuf (advanceParseCursor 2 s).parseIdx = SD_VHS_VALUE then
      advanceParseCursor 1
        (if s.rxBuf (advanceParseCursor 1 (advanceParseCursor 2 s)).parseIdx =
            SD_CHECK_PATTERN then
          { SdCommand .cmd55 env (advanceParseCursor 1 (advanceParseCursor 2 s)) with
              waitReturn := .acmd41Prep }
        else advanceParseCursor 1 (advanceParseCursor 2 s))
    else { advanceParseCursor 2 s with errorCode := .cardVoltage, machine := .errorState })
  else s

/-- SdCardReadCMD8: the completion processing watched by the SSP timeout,
which runs on the state left by the body. -/
def SdCardReadCMD8 (env : Env) (s : SdState) : SdState :=
  CheckTimeout SD_SPI_WAIT_TIME_MS env (SdCardReadCMD8Body env s)

/-- SdCardACMD41: on an idle response to CMD55, set BIT6 of the mutable
ACMD41 argument byte when the card is TypeV2 and dispatch ACMD41;
otherwise bad response. -/
def SdCardACMD41 (env : Env) (s : SdState) : SdState :=
  advanceParseCursor 1
    (if s.rxBuf s.parseIdx = SD_STATUS_IDLE then
      { SdCommand .acmd41 env
          (if s.typeSD2 then { s with acmd41Arg1 := s.acmd41Arg1 ||| BIT6 } else s) with
          waitReturn := .responseACMD41 }
    else { s with errorCode := .badResponse, machine := .errorState })

/-- SdCardResponseACMD41: a ready response sends TypeV2 cards to CMD58 and
legacy cards (marked TypeV1) to CMD16; an idle response repeats the
CMD55 + ACMD41 pair. -/
def SdCardResponseACMD41 (env : Env) (s : SdState) : SdState :=
  advanceParseCursor 1
    (if s.rxBuf s.parseIdx = SD_STATUS_READY then
      (if s.typeSD2 then
        { SdCommand .cmd58 env s with waitReturn := .responseCMD58 }
      else
        { SdCommand .cmd16 env { s with typeSD1 := true } with
            waitReturn := .responseCMD16 })
    else { SdCommand .cmd55 env s with waitReturn := .acmd41Prep })

/-- SdCardResponseCMD58: ready queues the 4-byte OCR read (aborting on a
zero token), anything else is a bad response. -/
def SdCardResponseCMD58 (env : Env) (s : SdState) : SdState :=
  advanceParseCursor 1
    (if s.rxBuf s.parseIdx = SD_STATUS_READY then
      (if env.token ≠ 0 then
        { submit env 4 none s with machine := .readCMD58 }
      else
        { submit env 4 none s with errorCode := .noToken, machine := .errorState })
    else { s with errorCode := .badResponse, machine := .errorState })

/-- SdCardResponseCMD16: ready finishes initialization (release the bus,
status Idle, operating state ReadyIdle); anything else is a bad
response. -/
def SdCardResponseCMD16 (env : Env) (s : SdState) : SdState :=
  advanceParseCursor 1
    (if s.rxBuf s.parseIdx = SD_STATUS_READY then
      { s with ownsBus := false, cardState := .idle, machine := .readyIdle }
    else { s with errorCode := .badResponse, machine := .errorState })

/-- Completion part of SdCardReadCMD58: the capacity flag is cleared and
then set again exactly when the capacity-class bit of the first OCR byte
is set, in which case initialization finishes directly; otherwise CMD16
is dispatched; the parse cursor skips the four OCR bytes. -/
def SdCardReadCMD58Body (env : Env) (s : SdState) : SdState :=
  if queryComplete s then
    advanceParseCursor 4
      (if s.rxBuf s.parseIdx &&& SD_OCR_CCS_BIT ≠ 0 then
        { s with cardHC := true, ownsBus := false, cardState := .idle,
                 machine := .readyIdle }
      else
        { SdCommand .cmd16 env { s with cardHC := false } with
            waitReturn := .responseCMD16 })
  else s

/-- SdCardReadCMD58: the completion processing watched by the SSP
timeout, which runs on the state left by the body. -/
def SdCardReadCMD58 (env : Env) (s : SdState) : SdState :=
  CheckTimeout SD_SPI_WAIT_TIME_MS env (SdCardReadCMD58Body env s)

/-- Completion part of SdCardWaitReady: a byte other than 0xFF queues
another poll (the card is still answering the previous traffic, zero
token aborts), a byte equal to 0xFF means the card is ready: the full
frame is submitted as one bulk write, the parse cursor is pre-advanced by
the frame length and the machine moves to WaitCommand with a fresh
timeout reference. -/
def SdCardWaitReadyBody (env : Env) (s : SdState) : SdState :=
  if queryComplete s then
    (if s.rxBuf s.parseIdx ≠ 0xFF then
      advanceParseCursor 1
        (if env.token = 0 then
          { submit env 1 none s with errorCode := .noToken, machine := .errorState }
        else submit env 1 none s)
    else
      { advanceParseCursor SD_CMD_SIZE
          (submit env SD_CMD_SIZE (some (frameBytes s s.nextCommand)) s) with
          timeoutRef := env.time, machine := .waitCommand })
  else s

/-- SdCardWaitReady: every poll is guarded by the SSP timeout, which runs
on the state left by the body. -/
def SdCardWaitReady (env : Env) (s : SdState) : SdState :=
  CheckTimeout SD_SPI_WAIT_TIME_MS env (SdCardWaitReadyBody env s)

/-- Completion part of SdCardWaitCommand: a response byte with BIT7 still
set and retries remaining queues another single-byte read (zero token
aborts); otherwise the retry counter resets and the machine resumes the
saved wait-return state. -/
def SdCardWaitCommandBody (env : Env) (s : SdState) : SdState :=
  if queryComplete s then
    (if s.rxBuf s.parseIdx &&& BIT7 ≠ 0 ∧ s.retries ≠ 0 then
      advanceParseCursor 1
        (if env.token = 0 then
          { submit env 1 none { s with retries := s.retries - 1 } with
              errorCode := .noToken, machine := .errorState }
        else submit env 1 none { s with retries := s.retries - 1 })
    else { s with retries := SD_CMD_RETRIES, machine := s.waitReturn })
  else s

/-- SdCardWaitCommand: a dedicated timeout, checked on the state left by
the body, forces the error path regardless of the retry counter. -/
def SdCardWaitCommand (env : Env) (s : SdState) : SdState :=
  if IsTimeUp env.time (SdCardWaitCommandBody env s).timeoutRef SD_WAIT_TIME then
    { SdCardWaitCommandBody env s with
        retries := SD_CMD_RETRIES, errorCode := .timeout, machine := .errorState }
  else SdCardWaitCommandBody env s

/-- SdCardWaitSSP: the settle-wait; when the delay elapses the machine
resumes the saved wait-return state. -/
def SdCardWaitSSP (env : Env) (s : SdState) : SdState :=
  if IsTimeUp env.time s.timeoutRef SD_SPI_WAIT_TIME_MS then
    { s with machine := s.waitReturn }
  else s

/-- SdCardReadyIdle: re-check presence every tick; on removal the
presence check forces status NoCard (so the request test below it cannot
fire) and the handler exits through the settle-wait with the type flags
cleared.  With the card present, a pending read or write request grabs
the bus (denied requests exit through the settle-wait back to ReadyIdle);
the write branch just restores Idle, the read branch loads the four
big-endian address bytes into CMD17 and dispatches it. -/
def SdCardReadyIdle (env : Env) (s : SdState) : SdState :=
  if env.cardIn then
    (if s.cardState = .writing ∨ s.cardState = .reading then
      (if env.sspOk then
        (if s.cardState = .writing then
          { s with inserted := true, ownsBus := true,
                   machine := .readyIdle, cardState := .idle }
        else
          { SdCommand .cmd17 env
              { s with inserted := true, ownsBus := true,
                       cmd17b1 := s.address / 16777216 % 256,
                       cmd17b2 := s.address / 65536 % 256,
                       cmd17b3 := s.address / 256 % 256,
                       cmd17b4 := s.address % 256 } with
              waitReturn := .responseCMD17 })
      else
        { s with inserted := true, timeoutRef := env.time,
                 waitReturn := .readyIdle, machine := .waitSSP })
    else { s with inserted := true })
  else
    { s with inserted := false, cardState := .noCard,
             typeSD1 := false, typeSD2 := false, cardHC := false,
             timeoutRef := env.time, waitReturn := .idleNoCard, machine := .waitSSP }

/-- SdCardResponseCMD17: ready queues a single-byte poll for the start
token with a fresh timeout reference (the token is not checked here);
anything else is a bad response routed to the failed-transfer recovery
path. -/
def SdCardResponseCMD17 (env : Env) (s : SdState) : SdState :=
  advanceParseCursor 1
    (if s.rxBuf s.parseIdx = SD_STATUS_READY then
      { submit env 1 none s with timeoutRef := env.time, machine := .waitStartToken }
    else { s with errorCode := .badResponse, machine := .failedDataTransfer })

/-- Completion part of SdCardWaitStartToken: on the start-of-block marker
reset both cursors to the origin and queue the 514-byte sector read; on
any other byte re-issue a single-byte poll. -/
def SdCardWaitStartTokenBody (env : Env) (s : SdState) : SdState :=
  if queryComplete s then
    (if s.rxBuf s.parseIdx = TOKEN_START_BLOCK then
      { submit env 514 none { s with nextByte := 0, parseIdx := 0 } with
          machine := .dataTransfer }
    else advanceParseCursor 1 (submit env 1 none s))
  else s

/-- SdCardWaitStartToken: timing out while polling, checked on the state
left by the body, routes to the failed-transfer path. -/
def SdCardWaitStartToken (env : Env) (s : SdState) : SdState :=
  if IsTimeUp env.time (SdCardWaitStartTokenBody env s).timeoutRef SD_READ_TOKEN_MS then
    { SdCardWaitStartTokenBody env s with
        errorCode := .timeout, machine := .failedDataTransfer }
  else SdCardWaitStartTokenBody env s

/-- Completion part of SdCardDataTransfer: release the bus, reset the
cursors, report DataReady and return to ReadyIdle. -/
def SdCardDataTransferBody (env : Env) (s : SdState) : SdState :=
  if queryComplete s then
    { s with cardState := .dataReady, ownsBus := false,
             nextByte := 0, parseIdx := 0, machine := .readyIdle }
  else s

/-- SdCardDataTransfer: a timeout here, checked on the state left by the
body, routes to the general error path. -/
def SdCardDataTransfer (env : Env) (s : SdState) : SdState :=
  if IsTimeUp env.time (SdCardDataTransferBody env s).timeoutRef
      SD_SECTOR_READ_TIMEOUT_MS then
    { SdCardDataTransferBody env s with errorCode := .timeout, machine := .errorState }
  else SdCardDataTransferBody env s

/-- SdFailedDataTransfer: release the bus, flush the buffer, report
CardError and exit through the settle-wait; the saved wait-return state
is left untouched. -/
def SdFailedDataTransfer (env : Env) (s : SdState) : SdState :=
  { flushRxBuffer { s with ownsBus := false } with
      cardState := .cardError, timeoutRef := env.time, machine := .waitSSP }

/-- SdError: release the bus, flush the buffer, report NoCard and re-enter
detection through the settle-wait. -/
def SdError (env : Env) (s : SdState) : SdState :=
  { flushRxBuffer { s with ownsBus := false } with
      cardState := .noCard, timeoutRef := env.time,
      waitReturn := .idleNoCard, machine := .waitSSP }

/-- Dispatch on the current handler pointer. -/
def dispatch (env : Env) (s : SdState) : SdState :=
  match s.machine with
  | .idleNoCard => SdIdleNoCard env s
  | .dummies => SdCardDummies env s
  | .responseCMD0 => SdCardResponseCMD0 env s
  | .responseCMD8 => SdCardResponseCMD8 env s
  | .readCMD8 => SdCardReadCMD8 env s
  | .acmd41Prep => SdCardACMD41 env s
  | .responseACMD41 => SdCardResponseACMD41 env s
  | .responseCMD58 => SdCardResponseCMD58 env s
  | .responseCMD16 => SdCardResponseCMD16 env s
  | .readCMD58 => SdCardReadCMD58 env s
  | .waitReady => SdCardWaitReady env s
  | .waitCommand => SdCardWaitCommand env s
  | .waitSSP => SdCardWaitSSP env s
  | .readyIdle => SdCardReadyIdle env s
  | .responseCMD17 => SdCardResponseCMD17 env s
  | .waitStartToken => SdCardWaitStartToken env s
  | .dataTransfer => SdCardDataTransfer env s
  | .failedDataTransfer => SdFailedDataTransfer env s
  | .errorState => SdError env s

/-- Completion of the in-flight transfer: its received bytes land in the
receive buffer at the write cursor before the handler of this tick
runs. -/
def deliver (env : Env) (s : SdState) : SdState :=
  if s.pending && env.complete then
    let bc := writeBytes env.rxByte 0 s.inFlightLen (s.rxBuf, s.nextByte)
    { s with rxBuf := bc.1, nextByte := bc.2, pending := false }
  else s

/-- One scheduler tick of the SD-card task. -/
def tick (env : Env) (s : SdState) : SdState :=
  dispatch env (deliver env s)

/-- SdReadBlock: accepted only when the status is Idle; the sector address
is scaled to a byte address (with 32-bit wraparound) unless the card is
high capacity; the status becomes Reading. -/
def SdReadBlock (a : Nat) (s : SdState) : Bool × SdState :=
  if s.cardState = .idle then
    (true, { s with
        address := (if s.cardHC then a % 4294967296
                    else a % 4294967296 * 512 % 4294967296),
        cardState := .reading })
  else (false, s)

/-- SdWriteBlock: the unimplemented write stub. -/
def SdWriteBlock (a : Nat) (s : SdState) : Bool × SdState :=
  (false, s)

/-- The copy loop of SdGetReadData: destination indices 0 to n-1 receive
the corresponding receive-buffer bytes. -/
def copy512 (src dest : Nat → Nat) : Nat → (Nat → Nat)
  | 0 => dest
  | n + 1 => updateBuf (copy512 src dest n) n (src n)

/-- SdGetReadData: only when the status is DataReady, copy 512 bytes out
and reset the status to Idle; otherwise copy nothing and report
failure. -/
def SdGetReadData (s : SdState) (dest : Nat → Nat) : Bool × (Nat → Nat) × SdState :=
  if s.cardState = .dataReady then
    (true, copy512 s.rxBuf dest 512, { s with cardState := .idle })
  else (false, dest, s)

/-- The state after SdCardInitialize: zeroed buffer, both cursors at the
origin, handler SdIdleNoCard.  Modelled from the spec for the fields the
initializer does not touch: the status starts as NoCard (the initial
state of section 4.3) and all flags are clear. -/
def initState : SdState :=
  { machine := .idleNoCard, cardState := .noCard, inserted := false,
    typeSD1 := false, typeSD2 := false, cardHC := false, ownsBus := false,
    errorCode := .unknown, waitReturn := .idleNoCard, nextCommand := .cmd0,
    acmd41Arg1 := 0, cmd17b1 := 0, cmd17b2 := 0, cmd17b3 := 0, cmd17b4 := 0,
    rxBuf := fun _ => 0, nextByte := 0, parseIdx := 0, timeoutRef := 0,
    msgToken := 0, pending := false, inFlightLen := 0, lastWrite := none,
    address := 0, retries := SD_CMD_RETRIES }

/-- An interaction with the driver: one scheduler tick or one facade
call. -/
inductive Op
  | tickOp (env : Env)
  | readOp (a : Nat)
  | writeOp (a : Nat)
  | getDataOp

/-- Apply one interaction to the state. -/
def applyOp (o : Op) (s : SdState) : SdState :=
  match o with
  | .tickOp env => tick env s
  | .readOp a => (SdReadBlock a s).2
  | .writeOp a => (SdWriteBlock a s).2
  | .getDataOp => (SdGetReadData s (fun _ => 0)).2.2

/-- Run a list of interactions from a state. -/
def run (l : List Op) (s : SdState) : SdState :=
  l.foldl (fun s o => applyOp o s) s

/-- The 32-bit value encoded big-endian in the four CMD17 argument
bytes. -/
def cmd17Arg (s : SdState) : Nat :=
  s.cmd17b1 * 16777216 + s.cmd17b2 * 65536 + s.cmd17b3 * 256 + s.cmd17b4

/-- Byte sequence lookup for concrete environments. -/
def bytesOf (l : List Nat) : Nat → Nat :=
  fun i => l.getD i 0xFF

/-- Concrete environment builder for the scenario traces. -/
def mkEnv (t : Nat) (ci sspo : Bool) (tok : Nat) (comp : Bool) (l : List Nat) : Env :=
  { time := t, cardIn := ci, sspOk := sspo, token := tok, complete := comp,
    rxByte := bytesOf l }

/-- A tick with the card present, the bus available, token granted, and
the in-flight transfer completing with the given bytes. -/
def tkC (t : Nat) (l : List Nat) : Op := Op.tickOp (mkEnv t true true 1 true l)

/-- A tick with the card present and the bus available but no transfer
completion. -/
def tkN (t : Nat) : Op := Op.tickOp (mkEnv t true true 1 false [])

/-- A tick with the card absent. -/
def tkA (t : Nat) : Op := Op.tickOp (mkEnv t false true 1 false [])

/-- The seven bytes clocked in while a command frame is written: six bus
idle bytes followed by the R1 response byte. -/
def r1Seq (b : Nat) : List Nat := [0xFF, 0xFF, 0xFF, 0xFF, 0xFF, 0xFF, b]

/-- Insertion, wake-up dummies, CMD0 dispatched: the machine sits in
WaitReady for the CMD0 response with the poll read in flight. -/
def baseOps : List Op := [tkN 0, tkC 0 (List.replicate 10 0xFF)]

/-- The WaitReady state reached by baseOps. -/
def sWR : SdState := run baseOps initState

/-- A completion delivering the bus-idle byte 0xFF. -/
def eReady : Env := mkEnv 0 true true 1 true [0xFF]

/-- A completion delivering a byte other than 0xFF. -/
def eBusy : Env := mkEnv 0 true true 1 true [0x00]

/-- A completion delivering 0xFF on a tick whose time is already past the
captured deadline. -/
def eLate : Env := mkEnv 1000 true true 1 true [0xFF]

/-- A version-2 card detection up to the tick that prepares ACMD41 with
TypeV2 set: CMD0 idle, CMD8 idle with matching echo, CMD55 idle.  Ends in
WaitReady with the ACMD41 frame saved. -/
def v2PrefixOps : List Op :=
  [tkN 0, tkC 0 (List.replicate 10 0xFF), tkC 0 [0xFF], tkC 0 (r1Seq 0x01),
   tkN 0, tkC 0 [0xFF], tkC 0 (r1Seq 0x01), tkN 0, tkC 0 [0x00, 0x00, 0x01, 0xAA],
   tkC 0 [0xFF], tkC 0 (r1Seq 0x01), tkN 0]

/-- After the v2 cycle is aborted by a poll timeout, a second detection
cycle runs with a card that rejects CMD8 (legacy path), up to the tick
that prepares ACMD41 again; the type flags were cleared at the start of
the cycle but the mutable ACMD41 argument byte was not. -/
def c3TailOps : List Op :=
  [tkN 1000, tkN 1000, tkN 1100, tkN 1100, tkC 1100 (List.replicate 10 0xFF),
   tkC 1100 [0xFF], tkC 1100 (r1Seq 0x01), tkN 1100, tkC 1100 [0xFF],
   tkC 1100 (r1Seq 0x05), tkN 1100, tkC 1100 [0xFF], tkC 1100 (r1Seq 0x01), tkN 1100]

/-- The state that dispatches ACMD41 for the legacy card of the second
cycle. -/
def sC3 : SdState := run (v2PrefixOps ++ c3TailOps) initState

/-- The completion that lets WaitReady submit the prepared ACMD41 frame. -/
def e27 : Env := mkEnv 1100 true true 1 true [0xFF]

/-- A legacy-card initialization driven to completion: CMD0 idle, CMD8
rejected, CMD55 idle, ACMD41 ready, CMD16 ready.  Ends in ReadyIdle with
status Idle and HighCapacity clear. -/
def initIdleOps : List Op :=
  [tkN 0, tkC 0 (List.replicate 10 0xFF), tkC 0 [0xFF], tkC 0 (r1Seq 0x01),
   tkN 0, tkC 0 [0xFF], tkC 0 (r1Seq 0x05), tkN 0, tkC 0 [0xFF],
   tkC 0 (r1Seq 0x01), tkN 0, tkC 0 [0xFF], tkC 0 (r1Seq 0x00), tkN 0,
   tkC 0 [0xFF], tkC 0 (r1Seq 0x00), tkN 0]

/-- The operating state reached by initIdleOps. -/
def sIdle : SdState := run initIdleOps initState

/-- From sIdle: a read request whose CMD17 draws a bad response, entering
the failed-transfer recovery and its settle-wait. -/
def c2TailOps : List Op :=
  [Op.readOp 100, tkN 0, tkC 0 [0xFF], tkC 0 (r1Seq 0x04), tkN 0, tkN 500]

/-- The settle-wait state entered from the failed-transfer handler. -/
def sFailed : SdState := run (initIdleOps ++ c2TailOps) initState

/-- The v2 detection continued to ReadCMD58: ACMD41 ready, CMD58 ready,
OCR read in flight. -/
def c4MidOps : List Op :=
  v2PrefixOps ++ [tkC 0 [0xFF], tkC 0 (r1Seq 0x00), tkN 0, tkC 0 [0xFF],
                  tkC 0 (r1Seq 0x00), tkN 0]

/-- The ReadCMD58 state with the OCR read in flight. -/
def sMid : SdState := run c4MidOps initState

/-- The OCR read completing after the deadline, first OCR byte with the
capacity-class bit set. -/
def e19 : Env := mkEnv 1000 true true 1 true [0x40, 0, 0, 0]

/-- The full run for claim C4: v2 detection, late OCR completion with the
capacity bit set, error recovery, then the card is removed. -/
def c4Ops : List Op := c4MidOps ++ [Op.tickOp e19, tkA 1000, tkA 1100, tkA 1100]

/-- A DataReady state for exercising SdGetReadData. -/
def sDR : SdState := { initState with cardState := CardState.dataReady }

/-!
Helper lemmas.
-/

/-- A deadline captured on the current tick has not elapsed on that tick
for any positive duration. -/
lemma isTimeUp_self (t d : Nat) (hd : 0 < d) : IsTimeUp t t d = false := by
  have h0 : (t % 4294967296 + 4294967296 - t % 4294967296) % 4294967296 = 0 := by omega
  unfold IsTimeUp
  rw [h0]
  exact decide_eq_false (by omega)

lemma wrapStep_eq (p : Nat) (hp : p < SDCARD_RX_BUFFER_SIZE) :
    wrapStep p = (p + 1) % SDCARD_RX_BUFFER_SIZE := by
  unfold wrapStep SDCARD_RX_BUFFER_SIZE at *
  split <;> omega

lemma wrapStep_lt (p : Nat) (hp : p < SDCARD_RX_BUFFER_SIZE) :
    wrapStep p < SDCARD_RX_BUFFER_SIZE := by
  unfold wrapStep SDCARD_RX_BUFFER_SIZE at *
  split <;> omega

lemma advanceIdx_eq (n : Nat) : ∀ p : Nat, p < SDCARD_RX_BUFFER_SIZE →
    advanceIdx p n = (p + n) % SDCARD_RX_BUFFER_SIZE := by
  induction n with
  | zero =>
    intro p hp
    show p = (p + 0) % SDCARD_RX_BUFFER_SIZE
    rw [Nat.add_zero]
    exact (Nat.mod_eq_of_lt hp).symm
  | succ n ih =>
    intro p hp
    show advanceIdx (wrapStep p) n = _
    rw [ih (wrapStep p) (wrapStep_lt p hp), wrapStep_eq p hp, Nat.mod_add_mod]
    have h1 : p + 1 + n = p + (n + 1) := by omega
    rw [h1]

lemma copy512_lt (src dest : Nat → Nat) : ∀ n i : Nat, i < n →
    copy512 src dest n i = src i := by
  intro n
  induction n with
  | zero => intro i h; omega
  | succ n ih =>
    intro i h
    show updateBuf (copy512 src dest n) n (src n) i = src i
    unfold updateBuf
    by_cases hi : i = n
    · rw [if_pos hi, hi]
    · rw [if_neg hi]
      exact ih i (by omega)

lemma copy512_ge (src dest : Nat → Nat) : ∀ n i : Nat, n ≤ i →
    copy512 src dest n i = dest i := by
  intro n
  induction n with
  | zero => intro i _; rfl
  | succ n ih =>
    intro i h
    show updateBuf (copy512 src dest n) n (src n) i = dest i
    unfold updateBuf
    rw [if_neg (by omega)]
    exact ih i (by omega)

/-!
Card-status preservation lemmas for the handlers, feeding the global
invariant that the status never becomes Writing.
-/

lemma checkTimeout_fresh (env : Env) (s2 : SdState) (h : s2.timeoutRef = env.time) :
    CheckTimeout SD_SPI_WAIT_TIME_MS env s2 = s2 := by
  unfold CheckTimeout
  rw [h, isTimeUp_self env.time SD_SPI_WAIT_TIME_MS (by decide)]
  simp

lemma SdCommand_nextCommand (c : Cmd) (env : Env) (s : SdState) :
    (SdCommand c env s).nextCommand = c := by
  unfold SdCommand submit
  split <;> rfl

lemma SdCommand_acmd41Arg1 (c : Cmd) (env : Env) (s : SdState) :
    (SdCommand c env s).acmd41Arg1 = s.acmd41Arg1 := by
  unfold SdCommand submit
  split <;> rfl

lemma SdCommand_cmd17Arg (c : Cmd) (env : Env) (s : SdState) :
    cmd17Arg (SdCommand c env s) = cmd17Arg s := by
  unfold SdCommand submit cmd17Arg
  split <;> rfl

lemma cs_SdCommand (c : Cmd) (env : Env) (s : SdState) :
    (SdCommand c env s).cardState = s.cardState := by
  unfold SdCommand submit
  split <;> rfl

lemma cs_deliver (env : Env) (s : SdState) :
    (deliver env s).cardState = s.cardState := by
  unfold deliver
  dsimp only
  split <;> rfl

lemma cs_idleNoCard (env : Env) (s : SdState) :
    (SdIdleNoCard env s).cardState = s.cardState ∨
    (SdIdleNoCard env s).cardState = CardState.noCard := by
  unfold SdIdleNoCard flushRxBuffer submit
  repeat' split
  all_goals simp

lemma cs_dummies (env : Env) (s : SdState) :
    (SdCardDummies env s).cardState = s.cardState := by
  unfold SdCardDummies SdCommand advanceParseCursor submit
  dsimp only
  repeat' split
  all_goals rfl

lemma cs_responseCMD0 (env : Env) (s : SdState) :
    (SdCardResponseCMD0 env s).cardState = s.cardState := by
  unfold SdCardResponseCMD0 SdCommand advanceParseCursor submit
  dsimp only
  repeat' split
  all_goals rfl

lemma cs_responseCMD8 (env : Env) (s : SdState) :
    (SdCardResponseCMD8 env s).cardState = s.cardState := by
  unfold SdCardResponseCMD8 SdCommand advanceParseCursor submit
  dsimp only
  repeat' split
  all_goals rfl

lemma cs_readCMD8 (env : Env) (s : SdState) :
    (SdCardReadCMD8 env s).cardState = s.cardState := by
  unfold SdCardReadCMD8 SdCardReadCMD8Body SdCommand CheckTimeout advanceParseCursor submit
  repeat' split
  all_goals rfl

lemma cs_acmd41Prep (env : Env) (s : SdState) :
    (SdCardACMD41 env s).cardState = s.cardState := by
  unfold SdCardACMD41 SdCommand advanceParseCursor submit
  dsimp only
  repeat' split
  all_goals rfl

lemma cs_responseACMD41 (env : Env) (s : SdState) :
    (SdCardResponseACMD41 env s).cardState = s.cardState := by
  unfold SdCardResponseACMD41 SdCommand advanceParseCursor submit
  dsimp only
  repeat' split
  all_goals rfl

lemma cs_responseCMD58 (env : Env) (s : SdState) :
    (SdCardResponseCMD58 env s).cardState = s.cardState := by
  unfold SdCardResponseCMD58 advanceParseCursor submit
  try dsimp only
  repeat' split
  all_goals rfl

lemma cs_responseCMD16 (env : Env) (s : SdState) :
    (SdCardResponseCMD16 env s).cardState = s.cardState ∨
    (SdCardResponseCMD16 env s).cardState = CardState.idle := by
  unfold SdCardResponseCMD16 advanceParseCursor
  try dsimp only
  repeat' split
  all_goals simp

lemma cs_readCMD58 (env : Env) (s : SdState) :
    (SdCardReadCMD58 env s).cardState = s.cardState ∨
    (SdCardReadCMD58 env s).cardState = CardState.idle := by
  unfold SdCardReadCMD58 SdCardReadCMD58Body SdCommand CheckTimeout advanceParseCursor submit
  repeat' split
  all_goals simp

lemma cs_waitReady (env : Env) (s : SdState) :
    (SdCardWaitReady env s).cardState = s.cardState := by
  unfold SdCardWaitReady SdCardWaitReadyBody CheckTimeout advanceParseCursor submit
  repeat' split
  all_goals rfl

lemma cs_waitCommand (env : Env) (s : SdState) :
    (SdCardWaitCommand env s).cardState = s.cardState := by
  unfold SdCardWaitCommand SdCardWaitCommandBody advanceParseCursor submit
  repeat' split
  all_goals rfl

lemma cs_waitSSP (env : Env) (s : SdState) :
    (SdCardWaitSSP env s).cardState = s.cardState := by
  unfold SdCardWaitSSP
  split <;> rfl

lemma cs_readyIdle (env : Env) (s : SdState) :
    (SdCardReadyIdle env s).cardState = s.cardState ∨
    (SdCardReadyIdle env s).cardState = CardState.noCard ∨
    (SdCardReadyIdle env s).cardState = CardState.idle := by
  unfold SdCardReadyIdle SdCommand submit
  repeat' split
  all_goals simp

lemma cs_responseCMD17 (env : Env) (s : SdState) :
    (SdCardResponseCMD17 env s).cardState = s.cardState := by
  unfold SdCardResponseCMD17 advanceParseCursor submit
  dsimp only
  repeat' split
  all_goals rfl

lemma cs_waitStartToken (env : Env) (s : SdState) :
    (SdCardWaitStartToken env s).cardState = s.cardState := by
  unfold SdCardWaitStartToken SdCardWaitStartTokenBody advanceParseCursor submit
  repeat' split
  all_goals rfl

lemma cs_dataTransfer (env : Env) (s : SdState) :
    (SdCardDataTransfer env s).cardState = s.cardState ∨
    (SdCardDataTransfer env s).cardState = CardState.dataReady := by
  unfold SdCardDataTransfer SdCardDataTransferBody
  repeat' split
  all_goals simp

lemma cs_failed (env : Env) (s : SdState) :
    (SdFailedDataTransfer env s).cardState = CardState.cardError := rfl

lemma cs_error (env : Env) (s : SdState) :
    (SdError env s).cardState = CardState.noCard := rfl

lemma dispatch_ne_writing (env : Env) (s : SdState)
    (h : s.cardState ≠ CardState.writing) :
    (dispatch env s).cardState ≠ CardState.writing := by
  unfold dispatch
  cases hm : s.machine <;> dsimp only
  case idleNoCard =>
    rcases cs_idleNoCard env s with h1 | h1 <;> rw [h1]
    · exact h
    · decide
  case dummies => rw [cs_dummies]; exact h
  case responseCMD0 => rw [cs_responseCMD0]; exact h
  case responseCMD8 => rw [cs_responseCMD8]; exact h
  case readCMD8 => rw [cs_readCMD8]; exact h
  case acmd41Prep => rw [cs_acmd41Prep]; exact h
  case responseACMD41 => rw [cs_responseACMD41]; exact h
  case responseCMD58 => rw [cs_responseCMD58]; exact h
  case responseCMD16 =>
    rcases cs_responseCMD16 env s with h1 | h1 <;> rw [h1]
    · exact h
    · decide
  case readCMD58 =>
    rcases cs_readCMD58 env s with h1 | h1 <;> rw [h1]
    · exact h
    · decide
  case waitReady => rw [cs_waitReady]; exact h
  case waitCommand => rw [cs_waitCommand]; exact h
  case waitSSP => rw [cs_waitSSP]; exact h
  case readyIdle =>
    rcases cs_readyIdle env s with h1 | h1 | h1 <;> rw [h1]
    · exact h
    · decide
    · decide
  case responseCMD17 => rw [cs_responseCMD17]; exact h
  case waitStartToken => rw [cs_waitStartToken]; exact h
  case dataTransfer =>
    rcases cs_dataTransfer env s with h1 | h1 <;> rw [h1]
    · exact h
    · decide
  case failedDataTransfer => rw [cs_failed]; decide
  case errorState => rw [cs_error]; decide

lemma applyOp_ne_writing (o : Op) (s : SdState)
    (h : s.cardState ≠ CardState.writing) :
    (applyOp o s).cardState ≠ CardState.writing := by
  cases o with
  | tickOp env =>
    show (dispatch env (deliver env s)).cardState ≠ CardState.writing
    exact dispatch_ne_writing env (deliver env s) (by rw [cs_deliver]; exact h)
  | readOp a =>
    show ((SdReadBlock a s).2).cardState ≠ CardState.writing
    unfold SdReadBlock
    by_cases hc : s.cardState = CardState.idle
    · rw [if_pos hc]
      simp
    · rw [if_neg hc]
      exact h
  | writeOp a => exact h
  | getDataOp =>
    show ((SdGetReadData s (fun _ => 0)).2.2).cardState ≠ CardState.writing
    unfold SdGetReadData
    by_cases hc : s.cardState = CardState.dataReady
    · rw [if_pos hc]
      simp
    · rw [if_neg hc]
      exact h

lemma run_ne_writing : ∀ (l : List Op) (s : SdState),
    s.cardState ≠ CardState.writing → (run l s).cardState ≠ CardState.writing := by
  intro l
  induction l with
  | nil => intro s h; exact h
  | cons o t ih =>
    intro s h
    exact ih (applyOp o s) (applyOp_ne_writing o s h)

/-!
Claims.
-/

/-- C9: for every starting parse-cursor position inside the buffer and
every advance amount, the ring-cursor advance lands back inside the
buffer, at the start plus the amount modulo the capacity. -/
theorem claim_C9 (p n : Nat) (hp : p < SDCARD_RX_BUFFER_SIZE) :
    advanceIdx p n < SDCARD_RX_BUFFER_SIZE ∧
    advanceIdx p n = (p + n) % SDCARD_RX_BUFFER_SIZE := by
  have he := advanceIdx_eq n p hp
  refine ⟨?_, he⟩
  rw [he]
  exact Nat.mod_lt _ (by decide)

/-- Witness for C9 at a wrapping input. -/
theorem claim_C9_witness :
    advanceIdx 595 9 < SDCARD_RX_BUFFER_SIZE ∧
    advanceIdx 595 9 = (595 + 9) % SDCARD_RX_BUFFER_SIZE :=
  claim_C9 595 9 (by decide)

/-- C5: SdReadBlock accepts exactly when the status is Idle, setting the
status to Reading; any other status is rejected with the whole driver
state unchanged. -/
theorem claim_C5 (a : Nat) (s : SdState) :
    (s.cardState = CardState.idle →
      (SdReadBlock a s).1 = true ∧ (SdReadBlock a s).2.cardState = CardState.reading) ∧
    (s.cardState ≠ CardState.idle → SdReadBlock a s = (false, s)) := by
  unfold SdReadBlock
  constructor
  · intro h
    rw [if_pos h]
    exact ⟨rfl, rfl⟩
  · intro h
    rw [if_neg h]

/-- Witness for C5: acceptance from a reachable Idle state and rejection
from the initial NoCard state. -/
theorem claim_C5_witness :
    ((SdReadBlock 100 sIdle).1 = true ∧
      (SdReadBlock 100 sIdle).2.cardState = CardState.reading) ∧
    SdReadBlock 100 initState = (false, initState) :=
  ⟨(claim_C5 100 sIdle).1 (by decide), (claim_C5 100 initState).2 (by decide)⟩

/-- C7: SdGetReadData copies receive-buffer bytes 0 through 511 to the
destination, resets the status to Idle and returns true exactly when the
status was DataReady; otherwise nothing is copied, false is returned and
the state is untouched. -/
theorem claim_C7 (s : SdState) (dest : Nat → Nat) :
    (s.cardState = CardState.dataReady →
      (SdGetReadData s dest).1 = true ∧
      (SdGetReadData s dest).2.2.cardState = CardState.idle ∧
      (∀ i : Nat, i < 512 → (SdGetReadData s dest).2.1 i = s.rxBuf i) ∧
      (∀ i : Nat, 512 ≤ i → (SdGetReadData s dest).2.1 i = dest i)) ∧
    (s.cardState ≠ CardState.dataReady → SdGetReadData s dest = (false, dest, s)) := by
  unfold SdGetReadData
  constructor
  · intro h
    rw [if_pos h]
    exact ⟨rfl, rfl, fun i hi => copy512_lt s.rxBuf dest 512 i hi,
           fun i hi => copy512_ge s.rxBuf dest 512 i hi⟩
  · intro h
    rw [if_neg h]

/-- Witness for C7: a successful copy out of a DataReady state and a
rejection from the initial state. -/
theorem claim_C7_witness :
    ((SdGetReadData sDR (fun _ => 7)).1 = true ∧
      (SdGetReadData sDR (fun _ => 7)).2.1 3 = sDR.rxBuf 3 ∧
      (SdGetReadData sDR (fun _ => 7)).2.1 600 = 7) ∧
    SdGetReadData initState (fun _ => 7) = (false, (fun _ => 7), initState) := by
  refine ⟨⟨((claim_C7 sDR (fun _ => 7)).1 rfl).1, ?_, ?_⟩,
          (claim_C7 initState (fun _ => 7)).2 (by decide)⟩
  · exact ((claim_C7 sDR (fun _ => 7)).1 rfl).2.2.1 3 (by omega)
  · exact ((claim_C7 sDR (fun _ => 7)).1 rfl).2.2.2 600 (by omega)

/-- C10: SdWriteBlock always rejects without modifying anything, and in
every state reachable from initialization by any sequence of ticks and
facade calls the externally polled status is never Writing, so the
Writing branch of the ReadyIdle handler can never run. -/
theorem claim_C10 :
    (∀ (a : Nat) (s : SdState), SdWriteBlock a s = (false, s)) ∧
    (∀ ops : List Op, (run ops initState).cardState ≠ CardState.writing) := by
  constructor
  · intro a s
    rfl
  · intro ops
    exact run_ne_writing ops initState (by decide)

/-- Witness for C10. -/
theorem claim_C10_witness :
    SdWriteBlock 3 initState = (false, initState) ∧
    (run baseOps initState).cardState ≠ CardState.writing :=
  ⟨claim_C10.1 3 initState, claim_C10.2 baseOps⟩

lemma testBit6_or_BIT6 (a : Nat) : (a ||| BIT6).testBit 6 = true := by
  have hb : BIT6 = 64 := rfl
  have h64 : Nat.testBit 64 6 = true := by decide
  rw [hb, Nat.testBit_lor, h64, Bool.or_true]

/-- C1 counterexample: in a reachable WaitReady state, a completed poll
whose byte is 0xFF makes the dispatcher submit the frame and move to
WaitCommand instead of polling again, and a completed poll whose byte is
not 0xFF keeps it polling in WaitReady; the polarity stated by the claim
is inverted. -/
theorem claim_C1_counterexample :
    sWR.machine = SM.waitReady ∧
    (deliver eReady sWR).rxBuf (deliver eReady sWR).parseIdx = 0xFF ∧
    (tick eReady sWR).machine = SM.waitCommand ∧
    (tick eReady sWR).lastWrite = some [0x40, 0, 0, 0, 0, 0x95, 0xFF] ∧
    (tick eReady sWR).inFlightLen = SD_CMD_SIZE ∧
    (deliver eBusy sWR).rxBuf (deliver eBusy sWR).parseIdx = 0x00 ∧
    (tick eBusy sWR).machine = SM.waitReady ∧
    (tick eBusy sWR).inFlightLen = 1 := by decide

/-- C1 as amended: in WaitReady, once the pending poll read has completed,
a received byte equal to 0xFF (bus idle, card ready) submits the whole
saved frame as one bulk write, pre-advances the parse cursor by the frame
length and moves to WaitCommand; a received byte other than 0xFF queues
another single-byte poll and stays in WaitReady while the poll timeout has
not elapsed. -/
theorem claim_C1 (env : Env) (s : SdState)
    (hm : s.machine = SM.waitReady) (hq : queryComplete s = true) :
    (s.rxBuf s.parseIdx = 0xFF →
      (SdCardWaitReady env s).machine = SM.waitCommand ∧
      (SdCardWaitReady env s).lastWrite = some (frameBytes s s.nextCommand) ∧
      (SdCardWaitReady env s).inFlightLen = SD_CMD_SIZE ∧
      (SdCardWaitReady env s).parseIdx = advanceIdx s.parseIdx SD_CMD_SIZE ∧
      (SdCardWaitReady env s).msgToken = env.token) ∧
    (s.rxBuf s.parseIdx ≠ 0xFF → env.token ≠ 0 →
      IsTimeUp env.time s.timeoutRef SD_SPI_WAIT_TIME_MS = false →
      (SdCardWaitReady env s).machine = SM.waitReady ∧
      (SdCardWaitReady env s).inFlightLen = 1 ∧
      (SdCardWaitReady env s).lastWrite = none ∧
      (SdCardWaitReady env s).parseIdx = advanceIdx s.parseIdx 1) := by
  constructor
  · intro hb
    have hnot : ¬ (s.rxBuf s.parseIdx ≠ 0xFF) := fun hn => hn hb
    unfold SdCardWaitReady SdCardWaitReadyBody
    rw [hq, if_pos rfl, if_neg hnot, checkTimeout_fresh env]
    · exact ⟨rfl, rfl, rfl, rfl, rfl⟩
    · rfl
  · intro hb htok htu
    have hz : ¬ (env.token = 0) := htok
    unfold SdCardWaitReady SdCardWaitReadyBody CheckTimeout
    rw [hq, if_pos rfl, if_pos hb, if_neg hz]
    rw [show (advanceParseCursor 1 (submit env 1 none s)).timeoutRef = s.timeoutRef
        from rfl, htu]
    rw [if_neg (by decide : ¬ (false = true))]
    exact ⟨hm, rfl, rfl, rfl⟩

/-- Witness for C1: both branches exercised at the reachable WaitReady
state of the base trace. -/
theorem claim_C1_witness :
    ((SdCardWaitReady eReady (deliver eReady sWR)).machine = SM.waitCommand ∧
      (SdCardWaitReady eReady (deliver eReady sWR)).inFlightLen = SD_CMD_SIZE) ∧
    ((SdCardWaitReady eBusy (deliver eBusy sWR)).machine = SM.waitReady ∧
      (SdCardWaitReady eBusy (deliver eBusy sWR)).inFlightLen = 1) := by
  refine ⟨?_, ?_⟩
  · have h := (claim_C1 eReady (deliver eReady sWR) (by decide) (by decide)).1 (by decide)
    exact ⟨h.1, h.2.2.1⟩
  · have h := (claim_C1 eBusy (deliver eBusy sWR) (by decide) (by decide)).2
      (by decide) (by decide) (by decide)
    exact ⟨h.1, h.2.1⟩

/-- C2 counterexample: a reachable failed-data-transfer recovery run.
The handler parks the machine in the settle-wait with status CardError,
but the saved wait-return state is still ResponseCMD17, so the tick that
ends the settle-wait resumes in ResponseCMD17, not in ReadyIdle. -/
theorem claim_C2_counterexample :
    (run (initIdleOps ++ c2TailOps.take 5) initState).machine = SM.failedDataTransfer ∧
    sFailed.machine = SM.waitSSP ∧
    sFailed.cardState = CardState.cardError ∧
    sFailed.waitReturn = SM.responseCMD17 ∧
    (tick (mkEnv 600 true true 1 false []) sFailed).machine = SM.responseCMD17 ∧
    SM.responseCMD17 ≠ SM.readyIdle := by decide

/-- C2 as amended: the failed-data-transfer handler releases bus
ownership, flushes the buffer, sets status CardError and enters the
settle-wait, leaving the card-type flags and the saved wait-return state
unchanged; when the settle-wait elapses the machine resumes in that saved
wait-return state, which on the failed-read paths is ResponseCMD17 rather
than ReadyIdle, and full re-detection is not forced. -/
theorem claim_C2 (env env2 : Env) (s : SdState)
    (hT : IsTimeUp env2.time env.time SD_SPI_WAIT_TIME_MS = true) :
    (SdFailedDataTransfer env s).ownsBus = false ∧
    (SdFailedDataTransfer env s).parseIdx = s.nextByte ∧
    (SdFailedDataTransfer env s).cardState = CardState.cardError ∧
    (SdFailedDataTransfer env s).machine = SM.waitSSP ∧
    (SdFailedDataTransfer env s).typeSD1 = s.typeSD1 ∧
    (SdFailedDataTransfer env s).typeSD2 = s.typeSD2 ∧
    (SdFailedDataTransfer env s).cardHC = s.cardHC ∧
    (SdFailedDataTransfer env s).waitReturn = s.waitReturn ∧
    (SdCardWaitSSP env2 (SdFailedDataTransfer env s)).machine = s.waitReturn := by
  refine ⟨rfl, rfl, rfl, rfl, rfl, rfl, rfl, rfl, ?_⟩
  unfold SdCardWaitSSP SdFailedDataTransfer flushRxBuffer
  simp only
  rw [hT]
  simp only [if_true]

/-- Witness for C2. -/
theorem claim_C2_witness :
    (SdFailedDataTransfer (mkEnv 0 true true 1 false []) sIdle).cardState =
      CardState.cardError ∧
    (SdFailedDataTransfer (mkEnv 0 true true 1 false []) sIdle).typeSD1 = sIdle.typeSD1 ∧
    (SdCardWaitSSP (mkEnv 100 true true 1 false [])
      (SdFailedDataTransfer (mkEnv 0 true true 1 false []) sIdle)).machine =
      sIdle.waitReturn := by
  have h := claim_C2 (mkEnv 0 true true 1 false []) (mkEnv 100 true true 1 false [])
    sIdle (by decide)
  exact ⟨h.2.2.1, h.2.2.2.2.1, h.2.2.2.2.2.2.2.2⟩

/-- C3 counterexample: a version-2 detection cycle sets BIT6 of the
mutable ACMD41 argument byte; after an abort and a second cycle with a
legacy card (type flags cleared, TypeV2 false), ACMD41 is dispatched and
written to the bus with the argument bit still set, so the bit is not set
only for version-2 cards. -/
theorem claim_C3_counterexample :
    (run v2PrefixOps initState).typeSD2 = true ∧
    (run v2PrefixOps initState).acmd41Arg1 = 0x40 ∧
    sC3.typeSD2 = false ∧
    sC3.machine = SM.waitReady ∧
    sC3.nextCommand = Cmd.acmd41 ∧
    Nat.testBit sC3.acmd41Arg1 6 = true ∧
    (tick e27 sC3).lastWrite = some [0x69, 0x40, 0, 0, 0, 0xFF, 0xFF] := by decide

/-- C3 as amended: whenever the ACMD41-preparation handler runs on an
idle CMD55 response, it dispatches ACMD41; the argument bit is newly set
when the current card is marked TypeV2, and otherwise the byte is left as
it was, so the bit is guaranteed set for TypeV2 cards but, being never
cleared, can remain set for a later non-TypeV2 card. -/
theorem claim_C3 (env : Env) (s : SdState)
    (hm : s.machine = SM.acmd41Prep) (hb : s.rxBuf s.parseIdx = SD_STATUS_IDLE) :
    (SdCardACMD41 env s).nextCommand = Cmd.acmd41 ∧
    (SdCardACMD41 env s).acmd41Arg1 =
      (if s.typeSD2 then s.acmd41Arg1 ||| BIT6 else s.acmd41Arg1) ∧
    (s.typeSD2 = true → Nat.testBit ((SdCardACMD41 env s).acmd41Arg1) 6 = true) := by
  unfold SdCardACMD41 SdCommand advanceParseCursor submit
  rw [if_pos hb]
  by_cases h2 : s.typeSD2 = true
  · rw [if_pos h2]
    by_cases ht : env.token ≠ 0
    · rw [if_pos ht]
      exact ⟨rfl, by rw [if_pos h2], fun _ => testBit6_or_BIT6 s.acmd41Arg1⟩
    · rw [if_neg ht]
      exact ⟨rfl, by rw [if_pos h2], fun _ => testBit6_or_BIT6 s.acmd41Arg1⟩
  · rw [if_neg h2]
    by_cases ht : env.token ≠ 0
    · rw [if_pos ht]
      exact ⟨rfl, by rw [if_neg h2], fun hcon => absurd hcon h2⟩
    · rw [if_neg ht]
      exact ⟨rfl, by rw [if_neg h2], fun hcon => absurd hcon h2⟩

/-- Witness for C3 at the reachable ACMD41-preparation state of the
version-2 cycle. -/
theorem claim_C3_witness :
    (SdCardACMD41 (mkEnv 0 true true 1 false [])
      (run (v2PrefixOps.take 11) initState)).nextCommand = Cmd.acmd41 ∧
    Nat.testBit (SdCardACMD41 (mkEnv 0 true true 1 false [])
      (run (v2PrefixOps.take 11) initState)).acmd41Arg1 6 = true := by
  have h := claim_C3 (mkEnv 0 true true 1 false [])
    (run (v2PrefixOps.take 11) initState) (by decide) (by decide)
  exact ⟨h.1, h.2.2 (by decide)⟩

/-!
Supporting lemmas for the timeout and capacity claims.
-/

lemma bool_eq_false {b : Bool} (h : ¬ (b = true)) : b = false := by
  cases b with
  | false => rfl
  | true => exact absurd rfl h

lemma machine_deliver (env : Env) (s : SdState) :
    (deliver env s).machine = s.machine := by
  unfold deliver
  split <;> rfl

lemma checkTimeout_fires (dur : Nat) (env : Env) (s2 : SdState)
    (h : IsTimeUp env.time s2.timeoutRef dur = true) :
    CheckTimeout dur env s2 =
      { s2 with errorCode := ErrorCode.timeout, machine := SM.errorState } := by
  unfold CheckTimeout
  rw [h, if_pos rfl]

lemma wcBody_tref (env : Env) (s : SdState) :
    (SdCardWaitCommandBody env s).timeoutRef = s.timeoutRef := by
  unfold SdCardWaitCommandBody advanceParseCursor submit
  repeat' split
  all_goals rfl

lemma wstBody_tref (env : Env) (s : SdState) :
    (SdCardWaitStartTokenBody env s).timeoutRef = s.timeoutRef := by
  unfold SdCardWaitStartTokenBody advanceParseCursor submit
  repeat' split
  all_goals rfl

lemma dtBody_tref (env : Env) (s : SdState) :
    (SdCardDataTransferBody env s).timeoutRef = s.timeoutRef := by
  unfold SdCardDataTransferBody
  split <;> rfl

lemma waitReadyBody_notReady (env : Env) (s : SdState)
    (h : queryComplete s = false ∨ s.rxBuf s.parseIdx ≠ 0xFF) :
    (SdCardWaitReadyBody env s).timeoutRef = s.timeoutRef := by
  unfold SdCardWaitReadyBody advanceParseCursor submit
  by_cases hq : queryComplete s = true
  · rcases h with h | h
    · rw [hq] at h
      exact absurd h (by decide)
    · rw [hq, if_pos rfl, if_pos h]
      split <;> rfl
  · rw [if_neg hq]

lemma waitReady_ready_machine (env : Env) (s : SdState)
    (hq : queryComplete s = true) (hb : s.rxBuf s.parseIdx = 0xFF) :
    (SdCardWaitReady env s).machine = SM.waitCommand := by
  unfold SdCardWaitReady SdCardWaitReadyBody
  rw [hq, if_pos rfl, if_neg (fun hn => hn hb), checkTimeout_fresh env]
  rfl

lemma readCMD8Body_match (env : Env) (s : SdState) (hq : queryComplete s = true)
    (hv : s.rxBuf (advanceParseCursor 2 s).parseIdx = SD_VHS_VALUE)
    (hc : s.rxBuf (advanceParseCursor 1 (advanceParseCursor 2 s)).parseIdx =
      SD_CHECK_PATTERN) :
    ((SdCardReadCMD8Body env s).machine = SM.waitReady ∨
      (SdCardReadCMD8Body env s).machine = SM.errorState) ∧
    (SdCardReadCMD8Body env s).timeoutRef = env.time := by
  unfold SdCardReadCMD8Body SdCommand
  rw [hq, if_pos rfl, if_pos hv, if_pos hc]
  split
  · exact ⟨Or.inl rfl, rfl⟩
  · exact ⟨Or.inr rfl, rfl⟩

lemma readCMD8Body_noMatch (env : Env) (s : SdState)
    (h : ¬ (queryComplete s = true ∧
      s.rxBuf (advanceParseCursor 2 s).parseIdx = SD_VHS_VALUE ∧
      s.rxBuf (advanceParseCursor 1 (advanceParseCursor 2 s)).parseIdx =
        SD_CHECK_PATTERN)) :
    (SdCardReadCMD8Body env s).timeoutRef = s.timeoutRef := by
  unfold SdCardReadCMD8Body
  by_cases hq : queryComplete s = true
  · rw [hq, if_pos rfl]
    by_cases hv : s.rxBuf (advanceParseCursor 2 s).parseIdx = SD_VHS_VALUE
    · rw [if_pos hv]
      by_cases hc : s.rxBuf (advanceParseCursor 1 (advanceParseCursor 2 s)).parseIdx =
          SD_CHECK_PATTERN
      · exact absurd ⟨hq, hv, hc⟩ h
      · rw [if_neg hc]
        rfl
    · rw [if_neg hv]
      rfl
  · rw [if_neg hq]

lemma readCMD58Body_ccs (env : Env) (s : SdState) (hq : queryComplete s = true)
    (hb : s.rxBuf s.parseIdx &&& SD_OCR_CCS_BIT ≠ 0) :
    (SdCardReadCMD58Body env s).machine = SM.readyIdle ∧
    (SdCardReadCMD58Body env s).timeoutRef = s.timeoutRef ∧
    (SdCardReadCMD58Body env s).cardHC = true := by
  unfold SdCardReadCMD58Body
  rw [hq, if_pos rfl, if_pos hb]
  exact ⟨rfl, rfl, rfl⟩

lemma readCMD58Body_noCcs (env : Env) (s : SdState) (hq : queryComplete s = true)
    (hb : ¬ (s.rxBuf s.parseIdx &&& SD_OCR_CCS_BIT ≠ 0)) :
    ((SdCardReadCMD58Body env s).machine = SM.waitReady ∨
      (SdCardReadCMD58Body env s).machine = SM.errorState) ∧
    (SdCardReadCMD58Body env s).timeoutRef = env.time := by
  unfold SdCardReadCMD58Body SdCommand
  rw [hq, if_pos rfl, if_neg hb]
  split
  · exact ⟨Or.inl rfl, rfl⟩
  · exact ⟨Or.inr rfl, rfl⟩

lemma decode_encode (x : Nat) :
    (x / 16777216 % 256) * 16777216 + (x / 65536 % 256) * 65536 +
      (x / 256 % 256) * 256 + x % 256 = x % 4294967296 := by
  omega

lemma readyIdle_read_cmd17Arg (env : Env) (s1 : SdState)
    (hm : s1.machine = SM.readyIdle) (hrd : s1.cardState = CardState.reading)
    (hci : env.cardIn = true) (hssp : env.sspOk = true) (hnc : env.complete = false) :
    cmd17Arg (tick env s1) = s1.address % 4294967296 := by
  unfold tick deliver
  rw [hnc]
  rw [if_neg (by simp : ¬ ((s1.pending && false) = true))]
  unfold dispatch
  rw [hm]
  show cmd17Arg (SdCardReadyIdle env s1) = s1.address % 4294967296
  unfold SdCardReadyIdle
  rw [hci, if_pos rfl, if_pos (Or.inr hrd), hssp, if_pos rfl,
      if_neg (show ¬ (s1.cardState = CardState.writing) by rw [hrd]; decide)]
  exact (SdCommand_cmd17Arg _ _ _).trans (decode_encode s1.address)

/-- C6 counterexample: a reachable Idle, non-high-capacity state accepts
a read of sector 8388608, but the 32-bit multiplication wraps: the CMD17
argument bytes encode 0 while the byte address 8388608 * 512 is 2 to the
power 32. -/
theorem claim_C6_counterexample :
    sIdle.cardState = CardState.idle ∧
    sIdle.cardHC = false ∧
    (SdReadBlock 8388608 sIdle).1 = true ∧
    cmd17Arg (tick (mkEnv 0 true true 1 false []) (SdReadBlock 8388608 sIdle).2) = 0 ∧
    (8388608 * 512 : Nat) = 4294967296 := by decide

/-- C6 as amended: for every accepted read request the 32-bit value
encoded big-endian in the CMD17 argument bytes equals the sector address
times 512 reduced modulo 2 to the power 32 when HighCapacity is clear,
and the sector address itself (reduced modulo 2 to the power 32) when
HighCapacity is set; in particular ReadBlock of sector 100 on the
reachable non-high-capacity Idle state yields CMD17 bytes encoding
51200. -/
theorem claim_C6 (s : SdState) (a : Nat) (env : Env)
    (hidle : s.cardState = CardState.idle) (hm : s.machine = SM.readyIdle)
    (hci : env.cardIn = true) (hssp : env.sspOk = true) (hnc : env.complete = false) :
    (SdReadBlock a s).1 = true ∧
    cmd17Arg (tick env (SdReadBlock a s).2) =
      (if s.cardHC then a % 4294967296 else a % 4294967296 * 512 % 4294967296) ∧
    cmd17Arg (tick (mkEnv 0 true true 1 false []) (SdReadBlock 100 sIdle).2) =
      51200 := by
  have hm2 : (SdReadBlock a s).2.machine = SM.readyIdle := by
    unfold SdReadBlock
    rw [if_pos hidle]
    exact hm
  have hrd2 : (SdReadBlock a s).2.cardState = CardState.reading := by
    unfold SdReadBlock
    rw [if_pos hidle]
  have hres := readyIdle_read_cmd17Arg env (SdReadBlock a s).2 hm2 hrd2 hci hssp hnc
  refine ⟨?_, ?_, by decide⟩
  · unfold SdReadBlock
    rw [if_pos hidle]
  · rw [hres]
    unfold SdReadBlock
    rw [if_pos hidle]
    by_cases hc : s.cardHC = true
    · rw [if_pos hc]
      show a % 4294967296 % 4294967296 = a % 4294967296
      omega
    · rw [if_neg hc]
      show a % 4294967296 * 512 % 4294967296 % 4294967296 =
        a % 4294967296 * 512 % 4294967296
      omega

/-- Witness for C6: the Scenario C instance extracted from the theorem. -/
theorem claim_C6_witness :
    (SdReadBlock 100 sIdle).1 = true ∧
    cmd17Arg (tick (mkEnv 0 true true 1 false []) (SdReadBlock 100 sIdle).2) =
      51200 := by
  have h := claim_C6 sIdle 100 (mkEnv 0 true true 1 false [])
    (by decide) (by decide) rfl rfl rfl
  exact ⟨h.1, h.2.2⟩

/-- C8 counterexample: a tick of the reachable WaitReady state that
begins past its captured deadline but whose poll completes with the
ready byte advances normally to WaitCommand without entering any
error-path state or recording a timeout. -/
theorem claim_C8_counterexample :
    IsTimeUp eLate.time sWR.timeoutRef SD_SPI_WAIT_TIME_MS = true ∧
    sWR.machine = SM.waitReady ∧
    (tick eLate sWR).machine = SM.waitCommand ∧
    (tick eLate sWR).machine ≠ SM.errorState ∧
    (tick eLate sWR).machine ≠ SM.failedDataTransfer ∧
    (tick eLate sWR).errorCode ≠ ErrorCode.timeout := by decide

/-- C8 as amended: on a tick that begins past the configured deadline,
no wait state remains in itself.  WaitCommand, WaitStartToken and
DataTransfer always enter their error path with ErrorCode Timeout on such
a tick; WaitReady, ReadCMD8 and ReadCMD58 enter the error path unless the
awaited completion arrives and passes its check on that same tick, in
which case they advance to the next protocol state (WaitCommand after the
frame write, WaitReady after the next command dispatch). -/
theorem claim_C8 (env : Env) (s : SdState) :
    (s.machine = SM.waitCommand →
      IsTimeUp env.time s.timeoutRef SD_WAIT_TIME = true →
      (dispatch env s).machine = SM.errorState ∧
      (dispatch env s).errorCode = ErrorCode.timeout) ∧
    (s.machine = SM.waitStartToken →
      IsTimeUp env.time s.timeoutRef SD_READ_TOKEN_MS = true →
      (dispatch env s).machine = SM.failedDataTransfer ∧
      (dispatch env s).errorCode = ErrorCode.timeout) ∧
    (s.machine = SM.dataTransfer →
      IsTimeUp env.time s.timeoutRef SD_SECTOR_READ_TIMEOUT_MS = true →
      (dispatch env s).machine = SM.errorState ∧
      (dispatch env s).errorCode = ErrorCode.timeout) ∧
    (s.machine = SM.waitReady →
      IsTimeUp env.time s.timeoutRef SD_SPI_WAIT_TIME_MS = true →
      (dispatch env s).machine ≠ SM.waitReady ∧
      ((dispatch env s).machine = SM.errorState ∨
        (dispatch env s).machine = SM.waitCommand)) ∧
    (s.machine = SM.readCMD8 →
      IsTimeUp env.time s.timeoutRef SD_SPI_WAIT_TIME_MS = true →
      (dispatch env s).machine ≠ SM.readCMD8 ∧
      ((dispatch env s).machine = SM.errorState ∨
        (dispatch env s).machine = SM.waitReady)) ∧
    (s.machine = SM.readCMD58 →
      IsTimeUp env.time s.timeoutRef SD_SPI_WAIT_TIME_MS = true →
      (dispatch env s).machine ≠ SM.readCMD58 ∧
      ((dispatch env s).machine = SM.errorState ∨
        (dispatch env s).machine = SM.waitReady)) := by
  refine ⟨fun hm hT => ?_, fun hm hT => ?_, fun hm hT => ?_,
          fun hm hT => ?_, fun hm hT => ?_, fun hm hT => ?_⟩
  · unfold dispatch
    rw [hm]
    show (SdCardWaitCommand env s).machine = SM.errorState ∧
      (SdCardWaitCommand env s).errorCode = ErrorCode.timeout
    unfold SdCardWaitCommand
    rw [wcBody_tref, hT, if_pos rfl]
    exact ⟨rfl, rfl⟩
  · unfold dispatch
    rw [hm]
    show (SdCardWaitStartToken env s).machine = SM.failedDataTransfer ∧
      (SdCardWaitStartToken env s).errorCode = ErrorCode.timeout
    unfold SdCardWaitStartToken
    rw [wstBody_tref, hT, if_pos rfl]
    exact ⟨rfl, rfl⟩
  · unfold dispatch
    rw [hm]
    show (SdCardDataTransfer env s).machine = SM.errorState ∧
      (SdCardDataTransfer env s).errorCode = ErrorCode.timeout
    unfold SdCardDataTransfer
    rw [dtBody_tref, hT, if_pos rfl]
    exact ⟨rfl, rfl⟩
  · unfold dispatch
    rw [hm]
    show (SdCardWaitReady env s).machine ≠ SM.waitReady ∧
      ((SdCardWaitReady env s).machine = SM.errorState ∨
        (SdCardWaitReady env s).machine = SM.waitCommand)
    by_cases hq : queryComplete s = true
    · by_cases hb : s.rxBuf s.parseIdx = 0xFF
      · have h1 := waitReady_ready_machine env s hq hb
        rw [h1]
        exact ⟨by decide, Or.inr rfl⟩
      · have h1 : SdCardWaitReady env s =
            { SdCardWaitReadyBody env s with
                errorCode := ErrorCode.timeout, machine := SM.errorState } := by
          unfold SdCardWaitReady
          exact checkTimeout_fires _ env _
            (by rw [waitReadyBody_notReady env s (Or.inr hb)]; exact hT)
        rw [h1]
        exact ⟨(by decide : SM.errorState ≠ SM.waitReady), Or.inl rfl⟩
    · have h1 : SdCardWaitReady env s =
          { SdCardWaitReadyBody env s with
              errorCode := ErrorCode.timeout, machine := SM.errorState } := by
        unfold SdCardWaitReady
        exact checkTimeout_fires _ env _
          (by rw [waitReadyBody_notReady env s (Or.inl (bool_eq_false hq))]; exact hT)
      rw [h1]
      exact ⟨(by decide : SM.errorState ≠ SM.waitReady), Or.inl rfl⟩
  · unfold dispatch
    rw [hm]
    show (SdCardReadCMD8 env s).machine ≠ SM.readCMD8 ∧
      ((SdCardReadCMD8 env s).machine = SM.errorState ∨
        (SdCardReadCMD8 env s).machine = SM.waitReady)
    by_cases hful : queryComplete s = true ∧
        s.rxBuf (advanceParseCursor 2 s).parseIdx = SD_VHS_VALUE ∧
        s.rxBuf (advanceParseCursor 1 (advanceParseCursor 2 s)).parseIdx =
          SD_CHECK_PATTERN
    · have h1 := readCMD8Body_match env s hful.1 hful.2.1 hful.2.2
      have h2 : SdCardReadCMD8 env s = SdCardReadCMD8Body env s := by
        unfold SdCardReadCMD8
        exact checkTimeout_fresh env _ h1.2
      rw [h2]
      rcases h1.1 with h3 | h3 <;> rw [h3]
      · exact ⟨by decide, Or.inr rfl⟩
      · exact ⟨by decide, Or.inl rfl⟩
    · have h1 : SdCardReadCMD8 env s =
          { SdCardReadCMD8Body env s with
              errorCode := ErrorCode.timeout, machine := SM.errorState } := by
        unfold SdCardReadCMD8
        exact checkTimeout_fires _ env _
          (by rw [readCMD8Body_noMatch env s hful]; exact hT)
      rw [h1]
      exact ⟨(by decide : SM.errorState ≠ SM.readCMD8), Or.inl rfl⟩
  · unfold dispatch
    rw [hm]
    show (SdCardReadCMD58 env s).machine ≠ SM.readCMD58 ∧
      ((SdCardReadCMD58 env s).machine = SM.errorState ∨
        (SdCardReadCMD58 env s).machine = SM.waitReady)
    by_cases hq : queryComplete s = true
    · by_cases hb : s.rxBuf s.parseIdx &&& SD_OCR_CCS_BIT ≠ 0
      · have h1 := readCMD58Body_ccs env s hq hb
        have h2 : SdCardReadCMD58 env s =
            { SdCardReadCMD58Body env s with
                errorCode := ErrorCode.timeout, machine := SM.errorState } := by
          unfold SdCardReadCMD58
          exact checkTimeout_fires _ env _ (by rw [h1.2.1]; exact hT)
        rw [h2]
        exact ⟨(by decide : SM.errorState ≠ SM.readCMD58), Or.inl rfl⟩
      · have h1 := readCMD58Body_noCcs env s hq hb
        have h2 : SdCardReadCMD58 env s = SdCardReadCMD58Body env s := by
          unfold SdCardReadCMD58
          exact checkTimeout_fresh env _ h1.2
        rw [h2]
        rcases h1.1 with h3 | h3 <;> rw [h3]
        · exact ⟨by decide, Or.inr rfl⟩
        · exact ⟨by decide, Or.inl rfl⟩
    · have hbody : SdCardReadCMD58Body env s = s := by
        unfold SdCardReadCMD58Body
        rw [if_neg hq]
      have h1 : SdCardReadCMD58 env s =
          { SdCardReadCMD58Body env s with
              errorCode := ErrorCode.timeout, machine := SM.errorState } := by
        unfold SdCardReadCMD58
        exact checkTimeout_fires _ env _ (by rw [hbody]; exact hT)
      rw [h1]
      exact ⟨(by decide : SM.errorState ≠ SM.readCMD58), Or.inl rfl⟩

/-- Witness for C8: a WaitCommand state whose deadline has elapsed enters
the error path with ErrorCode Timeout. -/
theorem claim_C8_witness :
    (dispatch (mkEnv 1000 true true 1 false [])
      { initState with machine := SM.waitCommand }).machine = SM.errorState ∧
    (dispatch (mkEnv 1000 true true 1 false [])
      { initState with machine := SM.waitCommand }).errorCode = ErrorCode.timeout :=
  (claim_C8 (mkEnv 1000 true true 1 false [])
    { initState with machine := SM.waitCommand }).1 rfl (by decide)

/-- C4 counterexample: a version-2 detection in which the CMD8 exchange
succeeds with matching echo bytes and the CMD58 OCR read returns the
capacity-class bit set, yet because that completion arrives after the
per-command deadline the same tick diverts to the error path; the card is
then removed and the machine parks in IdleNoCard with status NoCard, so
the run never reaches ReadyIdle even though HighCapacity was set. -/
theorem claim_C4_counterexample :
    (run (v2PrefixOps.take 8) initState).machine = SM.readCMD8 ∧
    (run (v2PrefixOps.take 9) initState).machine = SM.waitReady ∧
    (run (v2PrefixOps.take 9) initState).typeSD2 = true ∧
    sMid.machine = SM.readCMD58 ∧
    (deliver e19 sMid).rxBuf (deliver e19 sMid).parseIdx &&& SD_OCR_CCS_BIT = 64 ∧
    IsTimeUp e19.time sMid.timeoutRef SD_SPI_WAIT_TIME_MS = true ∧
    (run (c4MidOps ++ [Op.tickOp e19]) initState).machine = SM.errorState ∧
    (run (c4MidOps ++ [Op.tickOp e19]) initState).cardHC = true ∧
    (run (c4MidOps ++ [Op.tickOp e19]) initState).errorCode = ErrorCode.timeout ∧
    ((List.range (c4Ops.length + 1)).all
      (fun k => (run (c4Ops.take k) initState).machine != SM.readyIdle)) = true ∧
    (run c4Ops initState).machine = SM.idleNoCard ∧
    (run c4Ops initState).cardState = CardState.noCard := by decide

/-- C4 as amended: the ReadCMD58 handler reaches ReadyIdle with
HighCapacity set exactly when the OCR read has completed, the
capacity-class bit of the byte under the parse cursor is set, and the
per-command deadline has not elapsed on that tick; a completion at or
past the deadline diverts to the error path even with the bit set.
Moreover, with no card present a machine parked in IdleNoCard stays
there with status NoCard, never reaching ReadyIdle. -/
theorem claim_C4 (env : Env) (s : SdState) (hm : s.machine = SM.readCMD58) :
    (((SdCardReadCMD58 env s).machine = SM.readyIdle ∧
        (SdCardReadCMD58 env s).cardHC = true) ↔
      (queryComplete s = true ∧ s.rxBuf s.parseIdx &&& SD_OCR_CCS_BIT ≠ 0 ∧
        IsTimeUp env.time s.timeoutRef SD_SPI_WAIT_TIME_MS = false)) ∧
    (∀ (env2 : Env) (t : SdState), t.machine = SM.idleNoCard → env2.cardIn = false →
      (tick env2 t).machine = SM.idleNoCard ∧
      (tick env2 t).cardState = CardState.noCard) := by
  constructor
  · constructor
    · intro h1
      by_cases hq : queryComplete s = true
      · by_cases hb : s.rxBuf s.parseIdx &&& SD_OCR_CCS_BIT ≠ 0
        · by_cases ht : IsTimeUp env.time s.timeoutRef SD_SPI_WAIT_TIME_MS = true
          · exfalso
            have hc := readCMD58Body_ccs env s hq hb
            have h2 : SdCardReadCMD58 env s =
                { SdCardReadCMD58Body env s with
                    errorCode := ErrorCode.timeout, machine := SM.errorState } := by
              unfold SdCardReadCMD58
              exact checkTimeout_fires _ env _ (by rw [hc.2.1]; exact ht)
            rw [h2] at h1
            exact absurd h1.1 (by decide : SM.errorState ≠ SM.readyIdle)
          · exact ⟨hq, hb, bool_eq_false ht⟩
        · exfalso
          have hc := readCMD58Body_noCcs env s hq hb
          have h2 : SdCardReadCMD58 env s = SdCardReadCMD58Body env s := by
            unfold SdCardReadCMD58
            exact checkTimeout_fresh env _ hc.2
          rw [h2] at h1
          rcases hc.1 with h3 | h3 <;> rw [h3] at h1
          · exact absurd h1.1 (by decide : SM.waitReady ≠ SM.readyIdle)
          · exact absurd h1.1 (by decide : SM.errorState ≠ SM.readyIdle)
      · exfalso
        have hbody : SdCardReadCMD58Body env s = s := by
          unfold SdCardReadCMD58Body
          rw [if_neg hq]
        by_cases ht : IsTimeUp env.time s.timeoutRef SD_SPI_WAIT_TIME_MS = true
        · have h2 : SdCardReadCMD58 env s =
              { SdCardReadCMD58Body env s with
                  errorCode := ErrorCode.timeout, machine := SM.errorState } := by
            unfold SdCardReadCMD58
            exact checkTimeout_fires _ env _ (by rw [hbody]; exact ht)
          rw [h2] at h1
          exact absurd h1.1 (by decide : SM.errorState ≠ SM.readyIdle)
        · have h2 : SdCardReadCMD58 env s = s := by
            unfold SdCardReadCMD58
            rw [hbody]
            unfold CheckTimeout
            rw [if_neg ht]
          rw [h2] at h1
          rw [hm] at h1
          exact absurd h1.1 (by decide)
    · intro ⟨hq, hb, ht⟩
      have hc := readCMD58Body_ccs env s hq hb
      have h2 : SdCardReadCMD58 env s = SdCardReadCMD58Body env s := by
        unfold SdCardReadCMD58 CheckTimeout
        rw [hc.2.1, ht]
        rw [if_neg (by decide : ¬ (false = true))]
      rw [h2]
      exact ⟨hc.1, hc.2.2⟩
  · intro env2 t htm hci
    have hdm : (deliver env2 t).machine = SM.idleNoCard := by
      rw [machine_deliver]
      exact htm
    unfold tick dispatch
    rw [hdm]
    show (SdIdleNoCard env2 (deliver env2 t)).machine = SM.idleNoCard ∧
      (SdIdleNoCard env2 (deliver env2 t)).cardState = CardState.noCard
    unfold SdIdleNoCard
    rw [hci]
    rw [if_neg (by decide : ¬ (false = true))]
    exact ⟨hdm, rfl⟩

/-- Witness for C4: the handler-level equivalence instantiated at the
reachable ReadCMD58 state with a timely, capacity-bit-set completion, and
the parked-machine fact at the initial state. -/
theorem claim_C4_witness :
    ((SdCardReadCMD58 (mkEnv 0 true true 1 true [0x40, 0, 0, 0])
        (deliver (mkEnv 0 true true 1 true [0x40, 0, 0, 0]) sMid)).machine =
      SM.readyIdle ∧
      (SdCardReadCMD58 (mkEnv 0 true true 1 true [0x40, 0, 0, 0])
        (deliver (mkEnv 0 true true 1 true [0x40, 0, 0, 0]) sMid)).cardHC = true) ∧
    ((tick (mkEnv 0 false true 1 false []) initState).machine = SM.idleNoCard ∧
      (tick (mkEnv 0 false true 1 false []) initState).cardState =
        CardState.noCard) := by
  refine ⟨?_, ?_⟩
  · exact (claim_C4 (mkEnv 0 true true 1 true [0x40, 0, 0, 0])
      (deliver (mkEnv 0 true true 1 true [0x40, 0, 0, 0]) sMid) (by decide)).1.mpr
      ⟨by decide, by decide, by decide⟩
  · exact (claim_C4 (mkEnv 0 true true 1 true [0x40, 0, 0, 0])
      (deliver (mkEnv 0 true true 1 true [0x40, 0, 0, 0]) sMid) (by decide)).2
      (mkEnv 0 false true 1 false []) initState rfl rfl

end SdCard
